import Mathlib

/-!
The circuit relay example, `examples/relay/main.go`.

A shallow embedding of the circuit-relay example program.  The Go function
`run` is straight-line code with early returns whose only inputs are the
results of the library calls it makes.  Those results are collected in a
`World`; `run w` is the sequence of observable events (library calls with
their arguments and results, and log lines) that the Go function produces
when the libraries answer as `w` says.  Every event records the source line
of the statement that produced it.
-/

namespace Relay

/-- Go `error` values that are not nil, represented by their message. -/
abbrev Error := String

/-- The type `peer.ID`, represented by the text that `ID.String()` returns. -/
structure PeerID where
  str : String
  deriving DecidableEq, Repr

/-- The method `peer.ID.String`. -/
def PeerID.String (p : PeerID) : String := p.str

/-- A parsed `ma.Multiaddr`; only `ma.NewMultiaddr` produces one from text. -/
structure Multiaddr where
  bytes : List Nat
  deriving DecidableEq, Repr

/-- The struct `peer.AddrInfo`. -/
structure AddrInfo where
  ID : PeerID
  Addrs : List Multiaddr
  deriving DecidableEq, Repr

/-- A libp2p host as returned by `libp2p.New`: its identity, the answer of
`ID()`, and whether its `Network()` is a `*swarm.Swarm` (the type assertion on
line 149 panics otherwise). -/
structure Host where
  ref : Nat
  id : PeerID
  isSwarm : Bool
  deriving DecidableEq, Repr

/-- The method `host.Host.ID`. -/
def Host.ID (h : Host) : PeerID := h.id

/-- A `network.Stream` as returned by `NewStream`. -/
structure Stream where
  ref : Nat
  deriving DecidableEq, Repr

/-- The options `run` passes to `libp2p.New`. -/
inductive Libp2pOption where
  | NoListenAddrs
  | EnableRelay
  deriving DecidableEq, Repr

/-- The contexts `run` builds: `context.Background()` and
`network.WithUseTransient(ctx, reason)`. -/
inductive Ctx where
  | Background
  | WithUseTransient (parent : Ctx) (reason : String)
  deriving DecidableEq, Repr

/-- Whether a context carries the use-transient opt-in, that is, was built
with `network.WithUseTransient`. -/
def Ctx.useTransient : Ctx → Bool
  | .Background => false
  | .WithUseTransient _ _ => true

/-- Result of a call that returns `(T, error)`. -/
inductive Res (α : Type) where
  | ok (val : α)
  | err (e : Error)
  deriving DecidableEq, Repr

/-- One argument of a `log.Printf` / `log.Println` call. -/
inductive LogArg where
  | str (s : String)
  | err (e : Error)
  | id (p : PeerID)
  | addrs (as : List Multiaddr)
  deriving DecidableEq, Repr

/-- Observable events of `run`, each tagged with its source line. -/
inductive Event where
  /-- Call `libp2p.New(opts...)`. -/
  | libp2pNew (line : Nat) (opts : List Libp2pOption) (res : Res Host)
  /-- Call `log.Printf(format, args...)` or `log.Println(args...)`; a format
  string is the first argument. -/
  | log (line : Nat) (args : List LogArg)
  /-- Call `h.Connect(ctx, info)`. -/
  | connect (line : Nat) (h : Host) (ctx : Ctx) (info : AddrInfo) (res : Option Error)
  /-- Call `relay.New(h)`. -/
  | relayNew (line : Nat) (h : Host) (res : Option Error)
  /-- Call `h.SetStreamHandler(proto, handler)`. -/
  | setStreamHandler (line : Nat) (h : Host) (proto : String)
  /-- Call `client.Reserve(ctx, h, relayInfo)`. -/
  | reserve (line : Nat) (ctx : Ctx) (h : Host) (relayInfo : AddrInfo) (res : Option Error)
  /-- Call `ma.NewMultiaddr(text)`. -/
  | newMultiaddr (line : Nat) (text : String) (res : Res Multiaddr)
  /-- The type assertion `h.Network().(*swarm.Swarm)` failed and panics. -/
  | assertPanic (line : Nat) (h : Host)
  /-- Call `h.Network().(*swarm.Swarm).Backoff().Clear(p)`. -/
  | backoffClear (line : Nat) (h : Host) (p : PeerID)
  /-- Call `h.NewStream(ctx, p, proto)`. -/
  | newStream (line : Nat) (h : Host) (ctx : Ctx) (p : PeerID) (proto : String) (res : Res Stream)
  /-- Call `s.Read(buf)` with a buffer of `buflen` bytes; it returns `(n, err)`. -/
  | streamRead (line : Nat) (s : Stream) (buflen : Nat) (n : Nat) (res : Option Error)
  /-- Call `s.Close()`. -/
  | streamClose (line : Nat) (s : Stream) (res : Option Error)
  deriving DecidableEq, Repr

abbrev Trace := List Event

/-- What the libraries answer to the calls of `run`, one field per call site.
`Addrs()` is answered per call site (keyed by line), `ma.NewMultiaddr` is a
function of its argument. -/
structure World where
  /-- Result of `libp2p.New` on line 29. -/
  newUnreachable1 : Res Host
  /-- Result of `libp2p.New` on line 43. -/
  newUnreachable2 : Res Host
  /-- Result of `Addrs()` on lines 41, 58, 62 and 98. -/
  addrs : Nat → List Multiaddr
  /-- Result of `Connect` on line 65. -/
  connectDirect : Option Error
  /-- Result of `libp2p.New` on line 74. -/
  newRelay1 : Res Host
  /-- Result of `relay.New` on line 90. -/
  relayNew : Option Error
  /-- Result of `Connect` on line 102. -/
  connect1Relay : Option Error
  /-- Result of `Connect` on line 107. -/
  connect2Relay : Option Error
  /-- Result of `client.Reserve` on line 128. -/
  reserve : Option Error
  /-- The parser `ma.NewMultiaddr`, called on line 137. -/
  newMultiaddr : String → Res Multiaddr
  /-- Result of `Connect` on line 159. -/
  connectRelayed : Option Error
  /-- Result of `NewStream` on line 179. -/
  newStream : Res Stream
  /-- Result `(n, err)` of `s.Read` on line 185. -/
  read : Nat × Option Error

/-- The text `run` hands to `ma.NewMultiaddr` on line 137. -/
def encode (relayID targetID : PeerID) : String :=
  "/p2p/" ++ relayID.String ++ "/p2p-circuit/p2p/" ++ targetID.String

/-- The protocol ID used on lines 114 and 179. -/
def customprotocol : String := "/customprotocol"

/-- The stream handler installed on line 114, run on a stream `s` whose
`Close` answers `closeRes`. -/
def streamHandler (s : Stream) (closeRes : Option Error) : Trace :=
  [ .log 115 [.str "Awesome! We\x27re now communicating via the relay!"],
    .streamClose 118 s closeRes ]

/-- Lines 143-185 of `run`: after the relay address was parsed. -/
def runDial (w : World) (unreachable1 unreachable2 : Host) (relayaddr : Multiaddr) : Trace :=
  if unreachable1.isSwarm then
    .backoffClear 149 unreachable1 unreachable2.ID ::
    .log 152 [.str "Now let\x27s attempt to connect the hosts via the relay node"] ::
    let unreachable2relayinfo : AddrInfo := { ID := unreachable2.ID, Addrs := [relayaddr] }
    .connect 159 unreachable1 .Background unreachable2relayinfo w.connectRelayed ::
    match w.connectRelayed with
    | some err =>
      [.log 160 [.str "Unexpected error here. Failed to connect unreachable1 and unreachable2: %v",
                 .err err]]
    | none =>
      .log 164 [.str "Yep, that worked!"] ::
      .newStream 179 unreachable1 (.WithUseTransient .Background "customprotocol")
        unreachable2.ID customprotocol w.newStream ::
      match w.newStream with
      | .err err => [.log 181 [.str "Whoops, this should have worked...: ", .err err]]
      | .ok s => [.streamRead 185 s 1 w.read.1 w.read.2]
  else
    [.assertPanic 149 unreachable1]

/-- Lines 73-141 of `run`: after the direct dial failed. -/
def runRelay (w : World) (unreachable1 unreachable2 : Host) : Trace :=
  .log 71 [.str "As suspected we cannot directly dial between the unreachable hosts"] ::
  .libp2pNew 74 [] w.newRelay1 ::
  match w.newRelay1 with
  | .err err => [.log 76 [.str "Failed to create relay1: %v", .err err]]
  | .ok relay1 =>
    .relayNew 90 relay1 w.relayNew ::
    match w.relayNew with
    | some err => [.log 92 [.str "Failed to instantiate the relay: %v", .err err]]
    | none =>
      let relay1info : AddrInfo := { ID := relay1.ID, Addrs := w.addrs 98 }
      .connect 102 unreachable1 .Background relay1info w.connect1Relay ::
      match w.connect1Relay with
      | some err => [.log 103 [.str "Failed to connect unreachable1 and relay1: %v", .err err]]
      | none =>
        .connect 107 unreachable2 .Background relay1info w.connect2Relay ::
        match w.connect2Relay with
        | some err => [.log 108 [.str "Failed to connect unreachable2 and relay1: %v", .err err]]
        | none =>
          .setStreamHandler 114 unreachable2 customprotocol ::
          .reserve 128 .Background unreachable2 relay1info w.reserve ::
          match w.reserve with
          | some err =>
            [.log 130 [.str "unreachable2 failed to receive a relay reservation from relay1. %v",
                       .err err]]
          | none =>
            let text := encode relay1info.ID unreachable2.ID
            .newMultiaddr 137 text (w.newMultiaddr text) ::
            match w.newMultiaddr text with
            | .err err => [.log 139 [.err err]]
            | .ok relayaddr => runDial w unreachable1 unreachable2 relayaddr

/-- The function `run` (lines 22-186). -/
def run (w : World) : Trace :=
  .libp2pNew 29 [.NoListenAddrs, .EnableRelay] w.newUnreachable1 ::
  match w.newUnreachable1 with
  | .err err => [.log 37 [.str "Failed to create unreachable1: %v", .err err]]
  | .ok unreachable1 =>
    .log 41 [.str "PEER INFO:PEER1 ID:", .id unreachable1.ID, .str "ADDR:", .addrs (w.addrs 41)] ::
    .libp2pNew 43 [.NoListenAddrs, .EnableRelay] w.newUnreachable2 ::
    match w.newUnreachable2 with
    | .err err => [.log 49 [.str "Failed to create unreachable2: %v", .err err]]
    | .ok unreachable2 =>
      .log 53 [.str "First let\x27s attempt to directly connect"] ::
      .log 58 [.str "PEER INFO:PEER2 ID:", .id unreachable2.ID, .str "ADDR:", .addrs (w.addrs 58)] ::
      let unreachable2info : AddrInfo := { ID := unreachable2.ID, Addrs := w.addrs 62 }
      .connect 65 unreachable1 .Background unreachable2info w.connectDirect ::
      match w.connectDirect with
      | none => [.log 67 [.str "This actually should have failed."]]
      | some _ => runRelay w unreachable1 unreachable2

/-! ## AddressCodec.decode -/

/-- Modelled from the spec: the components of a relay-qualified address, as
`AddressCodec.decode` (not in `src/`) sees them: a peer component `/p2p/<id>`
or the circuit marker `/p2p-circuit`. -/
inductive Component where
  | p2p (id : PeerID)
  | circuit
  deriving DecidableEq, Repr

/-- Modelled from the spec: the first step of `AddressCodec.decode` (not in
`src/`), cutting the address text at every `/`. -/
def splitSlash : List Char → List (List Char)
  | [] => [[]]
  | c :: cs =>
    if c = '/' then [] :: splitSlash cs
    else
      match splitSlash cs with
      | [] => [[c]]
      | x :: xs => (c :: x) :: xs

/-- Modelled from the spec: the second step of `AddressCodec.decode` (not in
`src/`), reading the pieces as components: `p2p` takes the next piece, which
must not be empty, as a peer ID; `p2p-circuit` takes none. -/
def parseComponents : List (List Char) → Option (List Component)
  | [] => some []
  | [name] => if name = "p2p-circuit".data then some [.circuit] else none
  | name :: v :: rest =>
    if name = "p2p-circuit".data then
      (parseComponents (v :: rest)).map (Component.circuit :: ·)
    else if name = "p2p".data then
      if v = [] then none
      else (parseComponents rest).map (Component.p2p ⟨String.mk v⟩ :: ·)
    else none

/-- Modelled from the spec: `AddressCodec.decode(addr) -> (relayID, targetID) |
Error(Malformed)`, which is not in `src/`.  The address is read as a sequence
of components and split at the circuit marker: exactly one peer component
must stand before the marker (the relay) and exactly one after it (the
target); anything else is malformed (`none`). -/
def decode (addr : String) : Option (PeerID × PeerID) :=
  match addr.data with
  | '/' :: rest =>
    match parseComponents (splitSlash rest) with
    | some comps =>
      match comps.span (· ≠ Component.circuit) with
      | ([.p2p relayID], [.circuit, .p2p targetID]) => some (relayID, targetID)
      | _ => none
    | none => none
  | _ => none

/-- A valid peer ID: its text is not empty and contains no `/`. -/
def validID (p : PeerID) : Prop := p.str.data ≠ [] ∧ '/' ∉ p.str.data

instance (p : PeerID) : Decidable (validID p) := by
  unfold validID; infer_instance

/-! ## Traces -/

/-- The source line an event comes from. -/
def Event.line : Event → Nat
  | .libp2pNew l _ _ => l
  | .log l _ => l
  | .connect l _ _ _ _ => l
  | .relayNew l _ _ => l
  | .setStreamHandler l _ _ => l
  | .reserve l _ _ _ _ => l
  | .newMultiaddr l _ _ => l
  | .assertPanic l _ => l
  | .backoffClear l _ _ => l
  | .newStream l _ _ _ _ _ => l
  | .streamRead l _ _ _ _ => l
  | .streamClose l _ _ => l

/-- The non-nil error an event's call returned, if it returned one. -/
def Event.error : Event → Option Error
  | .libp2pNew _ _ (.err e) => some e
  | .libp2pNew _ _ (.ok _) => none
  | .log _ _ => none
  | .connect _ _ _ _ r => r
  | .relayNew _ _ r => r
  | .setStreamHandler _ _ _ => none
  | .reserve _ _ _ _ r => r
  | .newMultiaddr _ _ (.err e) => some e
  | .newMultiaddr _ _ (.ok _) => none
  | .assertPanic _ _ => none
  | .backoffClear _ _ _ => none
  | .newStream _ _ _ _ _ (.err e) => some e
  | .newStream _ _ _ _ _ (.ok _) => none
  | .streamRead _ _ _ _ r => r
  | .streamClose _ _ r => r

/-- Event `a` occurs in the trace, and `b` occurs somewhere after it. -/
def Before (a b : Event) : Trace → Prop
  | [] => False
  | e :: t => (e = a ∧ b ∈ t) ∨ Before a b t

/-- Deciding `Before` by walking the trace. -/
def decBefore (a b : Event) : (t : Trace) → Decidable (Before a b t)
  | [] => isFalse (fun h => h)
  | e :: t =>
    have : Decidable (Before a b t) := decBefore a b t
    inferInstanceAs (Decidable ((e = a ∧ b ∈ t) ∨ Before a b t))

instance (a b : Event) (t : Trace) : Decidable (Before a b t) := decBefore a b t

/-- The trace ends with `a` immediately followed by `b`. -/
def EndsWith (a b : Event) : Trace → Prop
  | [] => False
  | [_] => False
  | [x, y] => x = a ∧ y = b
  | _ :: y :: z :: t => EndsWith a b (y :: z :: t)

/-- Deciding `EndsWith` by walking the trace. -/
def decEndsWith (a b : Event) : (t : Trace) → Decidable (EndsWith a b t)
  | [] => isFalse (fun h => h)
  | [_] => isFalse (fun h => h)
  | [x, y] => inferInstanceAs (Decidable (x = a ∧ y = b))
  | _ :: y :: z :: t => decEndsWith a b (y :: z :: t)

instance (a b : Event) (t : Trace) : Decidable (EndsWith a b t) := decEndsWith a b t

/-- The error value `err` is an argument of some log line of the trace. -/
def Logged (err : Error) (t : Trace) : Bool :=
  t.any fun e =>
    match e with
    | .log _ args => decide (LogArg.err err ∈ args)
    | _ => false

/-- Every non-nil error returned by a call in the trace is an argument of some
log line of the trace. -/
def AllErrorsLogged (t : Trace) : Bool :=
  t.all fun e =>
    match e.error with
    | some err => Logged err t
    | none => true

/-- The setup steps of `run`: host creation, relay instantiation, the connects
to the relay, the reservation, address parsing, the relayed connect and the
stream open.  The direct dial on line 65, whose error is the expected
outcome, is not one of them. -/
def Event.isSetupStep : Event → Bool
  | .libp2pNew _ _ _ => true
  | .relayNew _ _ _ => true
  | .connect l _ _ _ _ => l != 65
  | .reserve _ _ _ _ _ => true
  | .newMultiaddr _ _ _ => true
  | .newStream _ _ _ _ _ _ => true
  | _ => false

/-- The first unreachable host of the sample worlds. -/
def sampleU1 : Host := { ref := 1, id := ⟨"QmUnreachable1"⟩, isSwarm := true }

/-- The second unreachable host of the sample worlds. -/
def sampleU2 : Host := { ref := 2, id := ⟨"QmUnreachable2"⟩, isSwarm := true }

/-- The relay host of the sample worlds. -/
def sampleRelay1 : Host := { ref := 3, id := ⟨"QmRelay1"⟩, isSwarm := true }

/-- The stream of the sample worlds. -/
def sampleStream : Stream := ⟨7⟩

/-- The listen address of the relay in the sample worlds. -/
def sampleListenAddr : Multiaddr := ⟨[4, 127, 0, 0, 1, 6, 15, 161]⟩

/-- The parser of the sample worlds: it accepts every text. -/
def sampleParse (s : String) : Res Multiaddr := .ok ⟨s.data.map Char.toNat⟩

/-- The relay address the sample parser returns for the sample hosts. -/
def sampleRelayAddr : Multiaddr :=
  ⟨("/p2p/QmRelay1/p2p-circuit/p2p/QmUnreachable2".data).map Char.toNat⟩

/-- A world in which every call succeeds, the direct dial fails as expected
and the final `Read` sees the stream closed. -/
def happyWorld : World where
  newUnreachable1 := .ok sampleU1
  newUnreachable2 := .ok sampleU2
  addrs := fun l => if l = 98 then [sampleListenAddr] else []
  connectDirect := some "no addresses"
  newRelay1 := .ok sampleRelay1
  relayNew := none
  connect1Relay := none
  connect2Relay := none
  reserve := none
  newMultiaddr := sampleParse
  connectRelayed := none
  newStream := .ok sampleStream
  read := (0, some "EOF")

/-- A world in which the direct dial between the unreachable hosts succeeds. -/
def directWorld : World := { happyWorld with connectDirect := none }

/-- A world in which the relay refuses the reservation. -/
def refusedWorld : World := { happyWorld with reserve := some "reservation refused" }

/-! ## The executions of `run`, listed -/

/-- Events of `run` up to line 41: `unreachable1` was created. -/
def upTo41 (w : World) (u1 : Host) : Trace :=
  [ .libp2pNew 29 [.NoListenAddrs, .EnableRelay] (.ok u1),
    .log 41 [.str "PEER INFO:PEER1 ID:", .id u1.ID, .str "ADDR:", .addrs (w.addrs 41)] ]

/-- Events of `run` up to line 58: both unreachable hosts were created. -/
def upTo58 (w : World) (u1 u2 : Host) : Trace :=
  upTo41 w u1 ++
  [ .libp2pNew 43 [.NoListenAddrs, .EnableRelay] (.ok u2),
    .log 53 [.str "First let\x27s attempt to directly connect"],
    .log 58 [.str "PEER INFO:PEER2 ID:", .id u2.ID, .str "ADDR:", .addrs (w.addrs 58)] ]

/-- Events of `run` up to line 71: the direct dial failed with `e`. -/
def upTo71 (w : World) (u1 u2 : Host) (e : Error) : Trace :=
  upTo58 w u1 u2 ++
  [ .connect 65 u1 .Background { ID := u2.ID, Addrs := w.addrs 62 } (some e),
    .log 71 [.str "As suspected we cannot directly dial between the unreachable hosts"] ]

/-- Events of `run` up to line 107: `relay1` was created, offers the relay
service, and both unreachable hosts are connected to it. -/
def upTo107 (w : World) (u1 u2 : Host) (e : Error) (r1 : Host) : Trace :=
  upTo71 w u1 u2 e ++
  [ .libp2pNew 74 [] (.ok r1),
    .relayNew 90 r1 none,
    .connect 102 u1 .Background { ID := r1.ID, Addrs := w.addrs 98 } none,
    .connect 107 u2 .Background { ID := r1.ID, Addrs := w.addrs 98 } none ]

/-- Events of `run` up to line 137: the handler is installed, the reservation
was granted and the relay address parsed to `a`. -/
def upTo137 (w : World) (u1 u2 : Host) (e : Error) (r1 : Host) (a : Multiaddr) : Trace :=
  upTo107 w u1 u2 e r1 ++
  [ .setStreamHandler 114 u2 "/customprotocol",
    .reserve 128 .Background u2 { ID := r1.ID, Addrs := w.addrs 98 } none,
    .newMultiaddr 137 ("/p2p/" ++ r1.ID.String ++ "/p2p-circuit/p2p/" ++ u2.ID.String) (.ok a) ]

/-- Events of `run` up to the call on line 159: the backoff was cleared and
the relayed dial returned `res`. -/
def upTo159 (w : World) (u1 u2 : Host) (e : Error) (r1 : Host) (a : Multiaddr)
    (res : Option Error) : Trace :=
  upTo137 w u1 u2 e r1 a ++
  [ .backoffClear 149 u1 u2.ID,
    .log 152 [.str "Now let\x27s attempt to connect the hosts via the relay node"],
    .connect 159 u1 .Background { ID := u2.ID, Addrs := [a] } res ]

/-- Events of `run` up to the call on line 179: the relayed dial succeeded and
`NewStream` returned `res`. -/
def upTo179 (w : World) (u1 u2 : Host) (e : Error) (r1 : Host) (a : Multiaddr)
    (res : Res Stream) : Trace :=
  upTo159 w u1 u2 e r1 a none ++
  [ .log 164 [.str "Yep, that worked!"],
    .newStream 179 u1 (.WithUseTransient .Background "customprotocol") u2.ID "/customprotocol" res ]

/-- The executions of `run`: which answers of the world lead to which trace.
`run_shape` shows that `run w` always is one of them. -/
inductive RunShape (w : World) : Trace → Prop where
  | failUnreachable1 (err : Error) : w.newUnreachable1 = .err err →
      RunShape w
        [ .libp2pNew 29 [.NoListenAddrs, .EnableRelay] (.err err),
          .log 37 [.str "Failed to create unreachable1: %v", .err err] ]
  | failUnreachable2 (u1 : Host) (err : Error) :
      w.newUnreachable1 = .ok u1 → w.newUnreachable2 = .err err →
      RunShape w (upTo41 w u1 ++
        [ .libp2pNew 43 [.NoListenAddrs, .EnableRelay] (.err err),
          .log 49 [.str "Failed to create unreachable2: %v", .err err] ])
  | directDialWorked (u1 u2 : Host) :
      w.newUnreachable1 = .ok u1 → w.newUnreachable2 = .ok u2 → w.connectDirect = none →
      RunShape w (upTo58 w u1 u2 ++
        [ .connect 65 u1 .Background { ID := u2.ID, Addrs := w.addrs 62 } none,
          .log 67 [.str "This actually should have failed."] ])
  | failRelay1 (u1 u2 : Host) (e err : Error) :
      w.newUnreachable1 = .ok u1 → w.newUnreachable2 = .ok u2 → w.connectDirect = some e →
      w.newRelay1 = .err err →
      RunShape w (upTo71 w u1 u2 e ++
        [ .libp2pNew 74 [] (.err err),
          .log 76 [.str "Failed to create relay1: %v", .err err] ])
  | failRelayNew (u1 u2 : Host) (e : Error) (r1 : Host) (err : Error) :
      w.newUnreachable1 = .ok u1 → w.newUnreachable2 = .ok u2 → w.connectDirect = some e →
      w.newRelay1 = .ok r1 → w.relayNew = some err →
      RunShape w (upTo71 w u1 u2 e ++
        [ .libp2pNew 74 [] (.ok r1),
          .relayNew 90 r1 (some err),
          .log 92 [.str "Failed to instantiate the relay: %v", .err err] ])
  | failConnect1 (u1 u2 : Host) (e : Error) (r1 : Host) (err : Error) :
      w.newUnreachable1 = .ok u1 → w.newUnreachable2 = .ok u2 → w.connectDirect = some e →
      w.newRelay1 = .ok r1 → w.relayNew = none → w.connect1Relay = some err →
      RunShape w (upTo71 w u1 u2 e ++
        [ .libp2pNew 74 [] (.ok r1),
          .relayNew 90 r1 none,
          .connect 102 u1 .Background { ID := r1.ID, Addrs := w.addrs 98 } (some err),
          .log 103 [.str "Failed to connect unreachable1 and relay1: %v", .err err] ])
  | failConnect2 (u1 u2 : Host) (e : Error) (r1 : Host) (err : Error) :
      w.newUnreachable1 = .ok u1 → w.newUnreachable2 = .ok u2 → w.connectDirect = some e →
      w.newRelay1 = .ok r1 → w.relayNew = none → w.connect1Relay = none →
      w.connect2Relay = some err →
      RunShape w (upTo71 w u1 u2 e ++
        [ .libp2pNew 74 [] (.ok r1),
          .relayNew 90 r1 none,
          .connect 102 u1 .Background { ID := r1.ID, Addrs := w.addrs 98 } none,
          .connect 107 u2 .Background { ID := r1.ID, Addrs := w.addrs 98 } (some err),
          .log 108 [.str "Failed to connect unreachable2 and relay1: %v", .err err] ])
  | failReserve (u1 u2 : Host) (e : Error) (r1 : Host) (err : Error) :
      w.newUnreachable1 = .ok u1 → w.newUnreachable2 = .ok u2 → w.connectDirect = some e →
      w.newRelay1 = .ok r1 → w.relayNew = none → w.connect1Relay = none →
      w.connect2Relay = none → w.reserve = some err →
      RunShape w (upTo107 w u1 u2 e r1 ++
        [ .setStreamHandler 114 u2 "/customprotocol",
          .reserve 128 .Background u2 { ID := r1.ID, Addrs := w.addrs 98 } (some err),
          .log 130 [.str "unreachable2 failed to receive a relay reservation from relay1. %v",
                    .err err] ])
  | failNewMultiaddr (u1 u2 : Host) (e : Error) (r1 : Host) (err : Error) :
      w.newUnreachable1 = .ok u1 → w.newUnreachable2 = .ok u2 → w.connectDirect = some e →
      w.newRelay1 = .ok r1 → w.relayNew = none → w.connect1Relay = none →
      w.connect2Relay = none → w.reserve = none →
      w.newMultiaddr ("/p2p/" ++ r1.ID.String ++ "/p2p-circuit/p2p/" ++ u2.ID.String) = .err err →
      RunShape w (upTo107 w u1 u2 e r1 ++
        [ .setStreamHandler 114 u2 "/customprotocol",
          .reserve 128 .Background u2 { ID := r1.ID, Addrs := w.addrs 98 } none,
          .newMultiaddr 137 ("/p2p/" ++ r1.ID.String ++ "/p2p-circuit/p2p/" ++ u2.ID.String)
            (.err err),
          .log 139 [.err err] ])
  | notSwarm (u1 u2 : Host) (e : Error) (r1 : Host) (a : Multiaddr) :
      w.newUnreachable1 = .ok u1 → w.newUnreachable2 = .ok u2 → w.connectDirect = some e →
      w.newRelay1 = .ok r1 → w.relayNew = none → w.connect1Relay = none →
      w.connect2Relay = none → w.reserve = none →
      w.newMultiaddr ("/p2p/" ++ r1.ID.String ++ "/p2p-circuit/p2p/" ++ u2.ID.String) = .ok a →
      u1.isSwarm = false →
      RunShape w (upTo137 w u1 u2 e r1 a ++ [ .assertPanic 149 u1 ])
  | failRelayedConnect (u1 u2 : Host) (e : Error) (r1 : Host) (a : Multiaddr) (err : Error) :
      w.newUnreachable1 = .ok u1 → w.newUnreachable2 = .ok u2 → w.connectDirect = some e →
      w.newRelay1 = .ok r1 → w.relayNew = none → w.connect1Relay = none →
      w.connect2Relay = none → w.reserve = none →
      w.newMultiaddr ("/p2p/" ++ r1.ID.String ++ "/p2p-circuit/p2p/" ++ u2.ID.String) = .ok a →
      u1.isSwarm = true → w.connectRelayed = some err →
      RunShape w (upTo159 w u1 u2 e r1 a (some err) ++
        [ .log 160
            [.str "Unexpected error here. Failed to connect unreachable1 and unreachable2: %v",
             .err err] ])
  | failNewStream (u1 u2 : Host) (e : Error) (r1 : Host) (a : Multiaddr) (err : Error) :
      w.newUnreachable1 = .ok u1 → w.newUnreachable2 = .ok u2 → w.connectDirect = some e →
      w.newRelay1 = .ok r1 → w.relayNew = none → w.connect1Relay = none →
      w.connect2Relay = none → w.reserve = none →
      w.newMultiaddr ("/p2p/" ++ r1.ID.String ++ "/p2p-circuit/p2p/" ++ u2.ID.String) = .ok a →
      u1.isSwarm = true → w.connectRelayed = none → w.newStream = .err err →
      RunShape w (upTo179 w u1 u2 e r1 a (.err err) ++
        [ .log 181 [.str "Whoops, this should have worked...: ", .err err] ])
  | streamOpened (u1 u2 : Host) (e : Error) (r1 : Host) (a : Multiaddr) (s : Stream) :
      w.newUnreachable1 = .ok u1 → w.newUnreachable2 = .ok u2 → w.connectDirect = some e →
      w.newRelay1 = .ok r1 → w.relayNew = none → w.connect1Relay = none →
      w.connect2Relay = none → w.reserve = none →
      w.newMultiaddr ("/p2p/" ++ r1.ID.String ++ "/p2p-circuit/p2p/" ++ u2.ID.String) = .ok a →
      u1.isSwarm = true → w.connectRelayed = none → w.newStream = .ok s →
      RunShape w (upTo179 w u1 u2 e r1 a (.ok s) ++ [ .streamRead 185 s 1 w.read.1 w.read.2 ])

/-! ## ResourceLimiter -/

/-- Modelled from the spec: the `ResourceLimiter` of the relay service that
`relay.New` creates (the relay package is not in `src/`).  It holds the
ceiling on concurrent relayed connections per relay, the ceiling on
concurrent connections per target peer, and the currently admitted
`(relayID, peerID)` pairs. -/
structure Limiter where
  ceiling : Nat
  perPeer : Nat
  admitted : List (PeerID × PeerID)
  deriving DecidableEq, Repr

/-- Modelled from the spec: a freshly configured `ResourceLimiter` (the relay
package is not in `src/`); nothing is admitted yet. -/
def Limiter.new (ceiling perPeer : Nat) : Limiter :=
  { ceiling := ceiling, perPeer := perPeer, admitted := [] }

/-- Modelled from the spec: the count of currently admitted pairs of one relay
(the relay package is not in `src/`). -/
def Limiter.count (l : Limiter) (relayID : PeerID) : Nat :=
  (l.admitted.filter (fun pr => pr.1 = relayID)).length

/-- Modelled from the spec: the count of currently admitted connections of one
target peer at one relay (the relay package is not in `src/`). -/
def Limiter.countPeer (l : Limiter) (relayID peerID : PeerID) : Nat :=
  l.admitted.count (relayID, peerID)

/-- Modelled from the spec: `ResourceLimiter.admit(relayID, peerID) -> bool`
(the relay package is not in `src/`), named `admitPair` here.  A pair is
admitted when the relay is below its ceiling and the peer below the per-peer
ceiling; a refusal changes nothing. -/
def Limiter.admitPair (l : Limiter) (relayID peerID : PeerID) : Bool × Limiter :=
  if l.count relayID < l.ceiling ∧ l.countPeer relayID peerID < l.perPeer then
    (true, { l with admitted := (relayID, peerID) :: l.admitted })
  else
    (false, l)

/-- Modelled from the spec: `ResourceLimiter.release(relayID, peerID)` (the
relay package is not in `src/`); it gives back one admission of the pair. -/
def Limiter.releasePair (l : Limiter) (relayID peerID : PeerID) : Limiter :=
  { l with admitted := l.admitted.erase (relayID, peerID) }

/-- Modelled from the spec: a call on the `ResourceLimiter` (the relay package
is not in `src/`). -/
inductive LimiterCall where
  | admitPair (relayID peerID : PeerID)
  | releasePair (relayID peerID : PeerID)
  deriving DecidableEq, Repr

/-- Modelled from the spec: the limiter after one call (the relay package is
not in `src/`). -/
def Limiter.step (l : Limiter) : LimiterCall → Limiter
  | .admitPair relayID peerID => (l.admitPair relayID peerID).2
  | .releasePair relayID peerID => l.releasePair relayID peerID

/-- Modelled from the spec: the limiter after a sequence of calls (the relay
package is not in `src/`). -/
def Limiter.calls (l : Limiter) (cs : List LimiterCall) : Limiter :=
  cs.foldl Limiter.step l

/-! ## The address codec -/

theorem splitSlash_append (a rest : List Char) (h : '/' ∉ a) :
    splitSlash (a ++ '/' :: rest) = a :: splitSlash rest := by
  induction a with
  | nil => simp [splitSlash]
  | cons c cs ih =>
    have hc : c ≠ '/' := fun e => h (by simp [e])
    have hcs : '/' ∉ cs := fun e => h (by simp [e])
    simp [splitSlash, hc, ih hcs]

theorem splitSlash_no_slash (a : List Char) (h : '/' ∉ a) : splitSlash a = [a] := by
  induction a with
  | nil => simp [splitSlash]
  | cons c cs ih =>
    have hc : c ≠ '/' := fun e => h (by simp [e])
    have hcs : '/' ∉ cs := fun e => h (by simp [e])
    simp [splitSlash, hc, ih hcs]

theorem encode_data (r t : PeerID) :
    (encode r t).data
      = '/' :: ("p2p".data ++ '/' :: (r.str.data ++ '/' ::
          ("p2p-circuit".data ++ '/' :: ("p2p".data ++ '/' :: t.str.data)))) := by
  simp [encode, PeerID.String, String.data_append]

theorem decode_encode_of_valid (r t : PeerID) (hr : validID r) (ht : validID t) :
    decode (encode r t) = some (r, t) := by
  obtain ⟨hr1, hr2⟩ := hr
  obtain ⟨ht1, ht2⟩ := ht
  unfold decode
  rw [encode_data]
  simp only []
  rw [splitSlash_append _ _ (by decide), splitSlash_append _ _ hr2,
    splitSlash_append _ _ (by decide), splitSlash_append _ _ (by decide),
    splitSlash_no_slash _ ht2]
  simp [parseComponents, hr1, ht1, List.span, List.span.loop]

/-- C1: for all valid peer IDs (non-empty, no `/`), decoding the address text
that `run` builds on line 137, `"/p2p/" + relayID + "/p2p-circuit/p2p/" +
targetID`, by splitting it at the circuit marker gives back exactly
`(relayID, targetID)`; hence the encoding is injective on valid ID pairs. -/
theorem decode_encode_roundtrip (relayID targetID : PeerID)
    (hr : validID relayID) (ht : validID targetID) :
    encode relayID targetID
        = "/p2p/" ++ relayID.String ++ "/p2p-circuit/p2p/" ++ targetID.String ∧
      decode (encode relayID targetID) = some (relayID, targetID) ∧
      ∀ r t, validID r → validID t → encode relayID targetID = encode r t →
        relayID = r ∧ targetID = t := by
  refine ⟨rfl, decode_encode_of_valid relayID targetID hr ht, ?_⟩
  intro r t hr2 ht2 heq
  have h1 := decode_encode_of_valid relayID targetID hr ht
  have h2 := decode_encode_of_valid r t hr2 ht2
  rw [heq, h2] at h1
  simpa using h1.symm

theorem decode_encode_roundtrip_witness :
    validID ⟨"QmRelay1"⟩ ∧ validID ⟨"QmUnreachable2"⟩ ∧
      decode (encode ⟨"QmRelay1"⟩ ⟨"QmUnreachable2"⟩)
        = some (⟨"QmRelay1"⟩, ⟨"QmUnreachable2"⟩) :=
  ⟨by decide, by decide,
    (decode_encode_roundtrip ⟨"QmRelay1"⟩ ⟨"QmUnreachable2"⟩ (by decide) (by decide)).2.1⟩

/-! ## The resource limiter -/

theorem Limiter.step_ceiling (l : Limiter) (c : LimiterCall) : (l.step c).ceiling = l.ceiling := by
  cases c with
  | admitPair r p => simp only [Limiter.step, Limiter.admitPair]; split <;> rfl
  | releasePair r p => rfl

theorem Limiter.step_count_le (l : Limiter) (c : LimiterCall) (relayID : PeerID)
    (h : l.count relayID ≤ l.ceiling) : (l.step c).count relayID ≤ l.ceiling := by
  cases c with
  | admitPair r p =>
    simp only [Limiter.step, Limiter.admitPair]
    split
    · rename_i hlt
      by_cases hrr : r = relayID
      · subst hrr
        have := hlt.1
        simp only [Limiter.count, List.filter_cons, decide_True, if_true, List.length_cons] at this ⊢
        omega
      · simpa [Limiter.count, List.filter_cons, hrr] using h
    · exact h
  | releasePair r p =>
    have hsub : (l.admitted.erase (r, p)).Sublist l.admitted := List.erase_sublist _ _
    have hlen := (hsub.filter (fun pr => decide (pr.1 = relayID))).length_le
    simp only [Limiter.step, Limiter.releasePair, Limiter.count] at hlen h ⊢
    omega

theorem Limiter.calls_count_le (cs : List LimiterCall) (l : Limiter) (relayID : PeerID)
    (h : l.count relayID ≤ l.ceiling) :
    (l.calls cs).ceiling = l.ceiling ∧ (l.calls cs).count relayID ≤ l.ceiling := by
  induction cs generalizing l with
  | nil => exact ⟨rfl, h⟩
  | cons c cs ih =>
    have h1 := l.step_count_le c relayID h
    have h2 := l.step_ceiling c
    have := ih (l.step c) (by rw [h2]; exact h1)
    simpa [Limiter.calls, h2] using this

/-- C7: a relay never admits more than its configured concurrent-connection
ceiling: starting from the fresh limiter of a relay service, after every
prefix of every sequence of admit/release calls the count of currently
admitted pairs of any relay (in particular of the relay `run` instantiates
on line 90) is at most the ceiling, and the ceiling itself is unchanged. -/
theorem limiter_never_exceeds_ceiling (ceiling perPeer : Nat) (cs : List LimiterCall)
    (n : Nat) (relayID : PeerID) :
    (((Limiter.new ceiling perPeer).calls (cs.take n)).count relayID ≤ ceiling) ∧
      ((Limiter.new ceiling perPeer).calls (cs.take n)).ceiling = ceiling := by
  have := Limiter.calls_count_le (cs.take n) (Limiter.new ceiling perPeer) relayID
    (by simp [Limiter.new, Limiter.count])
  exact ⟨this.2, this.1⟩

/-! ## The executions of `run` -/

theorem run_shape (w : World) : RunShape w (run w) := by
  cases h1 : w.newUnreachable1 with
  | err e1 => simpa [run, h1] using RunShape.failUnreachable1 e1 h1
  | ok u1 =>
  cases h2 : w.newUnreachable2 with
  | err e2 => simpa [run, h1, h2, upTo41] using RunShape.failUnreachable2 u1 e2 h1 h2
  | ok u2 =>
  cases h3 : w.connectDirect with
  | none => simpa [run, h1, h2, h3, upTo41, upTo58] using RunShape.directDialWorked u1 u2 h1 h2 h3
  | some e3 =>
  cases h4 : w.newRelay1 with
  | err e4 =>
    simpa [run, runRelay, h1, h2, h3, h4, upTo41, upTo58, upTo71]
      using RunShape.failRelay1 u1 u2 e3 e4 h1 h2 h3 h4
  | ok r1 =>
  cases h5 : w.relayNew with
  | some e5 =>
    simpa [run, runRelay, h1, h2, h3, h4, h5, upTo41, upTo58, upTo71]
      using RunShape.failRelayNew u1 u2 e3 r1 e5 h1 h2 h3 h4 h5
  | none =>
  cases h6 : w.connect1Relay with
  | some e6 =>
    simpa [run, runRelay, h1, h2, h3, h4, h5, h6, upTo41, upTo58, upTo71]
      using RunShape.failConnect1 u1 u2 e3 r1 e6 h1 h2 h3 h4 h5 h6
  | none =>
  cases h7 : w.connect2Relay with
  | some e7 =>
    simpa [run, runRelay, h1, h2, h3, h4, h5, h6, h7, upTo41, upTo58, upTo71]
      using RunShape.failConnect2 u1 u2 e3 r1 e7 h1 h2 h3 h4 h5 h6 h7
  | none =>
  cases h8 : w.reserve with
  | some e8 =>
    simpa [run, runRelay, h1, h2, h3, h4, h5, h6, h7, h8, upTo41, upTo58, upTo71, upTo107,
      customprotocol] using RunShape.failReserve u1 u2 e3 r1 e8 h1 h2 h3 h4 h5 h6 h7 h8
  | none =>
  cases h9 : w.newMultiaddr ("/p2p/" ++ r1.ID.String ++ "/p2p-circuit/p2p/" ++ u2.ID.String) with
  | err e9 =>
    simpa [run, runRelay, encode, h1, h2, h3, h4, h5, h6, h7, h8, h9, upTo41, upTo58, upTo71,
      upTo107, customprotocol]
      using RunShape.failNewMultiaddr u1 u2 e3 r1 e9 h1 h2 h3 h4 h5 h6 h7 h8 h9
  | ok a =>
  cases h10 : u1.isSwarm with
  | false =>
    simpa [run, runRelay, runDial, encode, h1, h2, h3, h4, h5, h6, h7, h8, h9, h10, upTo41,
      upTo58, upTo71, upTo107, upTo137, customprotocol]
      using RunShape.notSwarm u1 u2 e3 r1 a h1 h2 h3 h4 h5 h6 h7 h8 h9 h10
  | true =>
  cases h11 : w.connectRelayed with
  | some e11 =>
    simpa [run, runRelay, runDial, encode, h1, h2, h3, h4, h5, h6, h7, h8, h9, h10, h11, upTo41,
      upTo58, upTo71, upTo107, upTo137, upTo159, customprotocol]
      using RunShape.failRelayedConnect u1 u2 e3 r1 a e11 h1 h2 h3 h4 h5 h6 h7 h8 h9 h10 h11
  | none =>
  cases h12 : w.newStream with
  | err e12 =>
    simpa [run, runRelay, runDial, encode, h1, h2, h3, h4, h5, h6, h7, h8, h9, h10, h11, h12,
      upTo41, upTo58, upTo71, upTo107, upTo137, upTo159, upTo179, customprotocol]
      using RunShape.failNewStream u1 u2 e3 r1 a e12 h1 h2 h3 h4 h5 h6 h7 h8 h9 h10 h11 h12
  | ok s =>
    simpa [run, runRelay, runDial, encode, h1, h2, h3, h4, h5, h6, h7, h8, h9, h10, h11, h12,
      upTo41, upTo58, upTo71, upTo107, upTo137, upTo159, upTo179, customprotocol]
      using RunShape.streamOpened u1 u2 e3 r1 a s h1 h2 h3 h4 h5 h6 h7 h8 h9 h10 h11 h12

theorem Before.of_mem_append (a b : Event) (pre post : Trace) (h : b ∈ post) :
    Before a b (pre ++ a :: post) := by
  induction pre with
  | nil => exact Or.inl ⟨rfl, h⟩
  | cons x pre ih => exact Or.inr ih

theorem before_of_line (a e : Event) (pre post : Trace) (n : Nat)
    (hpre : ∀ x ∈ pre, x.line ≤ n) (ha : a.line ≤ n)
    (he : e ∈ pre ++ a :: post) (hl : n < e.line) : Before a e (pre ++ a :: post) := by
  apply Before.of_mem_append
  rcases List.mem_append.1 he with h | h
  · have := hpre e h; omega
  · rcases List.mem_cons.1 h with h | h
    · subst h; omega
    · exact h

/-! ## The relay address (lines 128-162) -/

/-- C2: the only address text `run` builds is the relay's peer ID (the ID of
`relay1`, from which the reservation was requested), then the circuit marker,
then the target's peer ID (the ID of `unreachable2`, which made the
reservation): `"/p2p/" + relay1.ID + "/p2p-circuit/p2p/" + unreachable2.ID`,
built after the reservation was granted; and the `AddrInfo` of the relayed
`Connect` on line 159 holds `unreachable2`'s ID and exactly one address, the
one parsed from that text. -/
theorem relay_address_form (w : World) :
    (∀ line text r, Event.newMultiaddr line text r ∈ run w →
      ∃ u2 relay1, w.newUnreachable2 = .ok u2 ∧ w.newRelay1 = .ok relay1 ∧
        text = "/p2p/" ++ relay1.ID.String ++ "/p2p-circuit/p2p/" ++ u2.ID.String ∧
        r = w.newMultiaddr text ∧
        Before (.reserve 128 .Background u2 { ID := relay1.ID, Addrs := w.addrs 98 } none)
          (.newMultiaddr line text r) (run w)) ∧
    (∀ h ctx info res, Event.connect 159 h ctx info res ∈ run w →
      ∃ u1 u2 relay1 relayaddr,
        w.newUnreachable1 = .ok u1 ∧ w.newUnreachable2 = .ok u2 ∧ w.newRelay1 = .ok relay1 ∧
        w.newMultiaddr ("/p2p/" ++ relay1.ID.String ++ "/p2p-circuit/p2p/" ++ u2.ID.String)
          = .ok relayaddr ∧
        h = u1 ∧ info = { ID := u2.ID, Addrs := [relayaddr] }) := by
  have hs := run_shape w
  generalize run w = t at hs ⊢
  constructor
  · intro line text r hmem
    cases hs <;> simp [upTo41, upTo58, upTo71, upTo107, upTo137, upTo159, upTo179] at hmem <;>
      simp_all [upTo41, upTo58, upTo71, upTo107, upTo137, upTo159, upTo179, Before]
  · intro h ctx info res hmem
    cases hs <;> simp [upTo41, upTo58, upTo71, upTo107, upTo137, upTo159, upTo179] at hmem <;>
      simp_all

theorem relay_address_form_witness :
    Event.connect 159 sampleU1 .Background { ID := sampleU2.ID, Addrs := [sampleRelayAddr] } none
        ∈ run happyWorld ∧
      ∃ u1 u2 relay1 relayaddr,
        happyWorld.newUnreachable1 = .ok u1 ∧ happyWorld.newUnreachable2 = .ok u2 ∧
        happyWorld.newRelay1 = .ok relay1 ∧
        happyWorld.newMultiaddr
            ("/p2p/" ++ relay1.ID.String ++ "/p2p-circuit/p2p/" ++ u2.ID.String)
          = .ok relayaddr ∧
        sampleU1 = u1 ∧
        ({ ID := sampleU2.ID, Addrs := [sampleRelayAddr] } : AddrInfo)
          = { ID := u2.ID, Addrs := [relayaddr] } :=
  ⟨by decide,
    (relay_address_form happyWorld).2 sampleU1 .Background
      { ID := sampleU2.ID, Addrs := [sampleRelayAddr] } none (by decide)⟩

/-! ## Reservation before the relayed dial (lines 121-162) -/

/-- C3: in every execution of `run`, the `Connect` through the relay address
(line 159) happens only after `client.Reserve` for `unreachable2` at `relay1`
returned without error; and when `Reserve` returns an error, `run` logs it
and returns: the log on line 130 directly follows the call and ends the run,
no event of a later line occurs, the relay address is not built (no
`ma.NewMultiaddr`), the backoff is not cleared and nothing is dialed (every
`Connect` of the run is one of those before line 128). -/
theorem reserve_precedes_relayed_dial (w : World) :
    (∀ h ctx info res, Event.connect 159 h ctx info res ∈ run w →
      ∃ u2 relay1, w.newUnreachable2 = .ok u2 ∧ w.newRelay1 = .ok relay1 ∧
        Before (.reserve 128 .Background u2 { ID := relay1.ID, Addrs := w.addrs 98 } none)
          (.connect 159 h ctx info res) (run w)) ∧
    (∀ line ctx h info err, Event.reserve line ctx h info (some err) ∈ run w →
      EndsWith (.reserve line ctx h info (some err))
        (.log 130 [.str "unreachable2 failed to receive a relay reservation from relay1. %v",
                   .err err]) (run w) ∧
      ∀ e ∈ run w, e.line ≤ 130 ∧
        (∀ l text r, e ≠ .newMultiaddr l text r) ∧
        (∀ l h2 p, e ≠ .backoffClear l h2 p) ∧
        (∀ l h2 c i r, e = .connect l h2 c i r → l < 128)) := by
  have hs := run_shape w
  generalize run w = t at hs ⊢
  constructor
  · intro h ctx info res hmem
    cases hs <;> simp [upTo41, upTo58, upTo71, upTo107, upTo137, upTo159, upTo179] at hmem <;>
      simp_all [upTo41, upTo58, upTo71, upTo107, upTo137, upTo159, upTo179, Before]
  · intro line ctx h info err hmem
    cases hs <;> simp [upTo41, upTo58, upTo71, upTo107, upTo137, upTo159, upTo179] at hmem
    simp_all [upTo41, upTo58, upTo71, upTo107, EndsWith, Event.line]
    refine ⟨?_, ?_, ?_⟩ <;> intros <;> omega

theorem reserve_precedes_relayed_dial_witness :
    (Event.connect 159 sampleU1 .Background { ID := sampleU2.ID, Addrs := [sampleRelayAddr] } none
        ∈ run happyWorld ∧
      ∃ u2 relay1, happyWorld.newUnreachable2 = .ok u2 ∧ happyWorld.newRelay1 = .ok relay1 ∧
        Before
          (.reserve 128 .Background u2 { ID := relay1.ID, Addrs := happyWorld.addrs 98 } none)
          (.connect 159 sampleU1 .Background
            { ID := sampleU2.ID, Addrs := [sampleRelayAddr] } none)
          (run happyWorld)) ∧
    (Event.reserve 128 .Background sampleU2 { ID := sampleRelay1.ID, Addrs := [sampleListenAddr] }
        (some "reservation refused") ∈ run refusedWorld ∧
      ∀ e ∈ run refusedWorld, e.line ≤ 130 ∧
        (∀ l text r, e ≠ .newMultiaddr l text r) ∧
        (∀ l h2 p, e ≠ .backoffClear l h2 p) ∧
        (∀ l h2 c i r, e = .connect l h2 c i r → l < 128)) :=
  ⟨⟨by decide,
    (reserve_precedes_relayed_dial happyWorld).1 sampleU1 .Background
      { ID := sampleU2.ID, Addrs := [sampleRelayAddr] } none (by decide)⟩,
   ⟨by decide,
    ((reserve_precedes_relayed_dial refusedWorld).2 128 .Background sampleU2
      { ID := sampleRelay1.ID, Addrs := [sampleListenAddr] } "reservation refused"
      (by decide)).2⟩⟩

/-! ## The transient opt-in (lines 169-183) -/

/-- C4: every stream `run` opens is opened by `unreachable1` to
`unreachable2`, after the relayed `Connect` succeeded, with the context
`network.WithUseTransient(context.Background(), "customprotocol")`, which
carries the use-transient opt-in; so `run` opens no stream with a context
lacking it. -/
theorem streams_opt_in_to_transient (w : World) (line : Nat) (h : Host) (ctx : Ctx) (p : PeerID)
    (proto : String) (res : Res Stream)
    (hmem : Event.newStream line h ctx p proto res ∈ run w) :
    ctx.useTransient = true ∧ ctx = .WithUseTransient .Background "customprotocol" ∧
      ∃ u1 u2 relayaddr, w.newUnreachable1 = .ok u1 ∧ w.newUnreachable2 = .ok u2 ∧
        h = u1 ∧ p = u2.ID ∧
        Before (.connect 159 u1 .Background { ID := u2.ID, Addrs := [relayaddr] } none)
          (.newStream line h ctx p proto res) (run w) := by
  have hs := run_shape w
  generalize run w = t at hs hmem ⊢
  cases hs <;> simp [upTo41, upTo58, upTo71, upTo107, upTo137, upTo159, upTo179] at hmem <;>
    simp_all [upTo41, upTo58, upTo71, upTo107, upTo137, upTo159, upTo179, Before,
      Ctx.useTransient]

theorem streams_opt_in_to_transient_witness :
    Event.newStream 179 sampleU1 (.WithUseTransient .Background "customprotocol") sampleU2.ID
        "/customprotocol" (.ok sampleStream) ∈ run happyWorld ∧
      (Ctx.WithUseTransient .Background "customprotocol").useTransient = true :=
  ⟨by decide,
    (streams_opt_in_to_transient happyWorld 179 sampleU1
      (.WithUseTransient .Background "customprotocol") sampleU2.ID "/customprotocol"
      (.ok sampleStream) (by decide)).1⟩

/-! ## Error handling (lines 22-186) -/

theorem setup_error_ends_run (w : World) :
    ∀ e ∈ run w, e.isSetupStep = true → ∀ err, e.error = some err →
      ∃ line args, LogArg.err err ∈ args ∧ EndsWith e (.log line args) (run w) := by
  have hs := run_shape w
  generalize run w = t at hs ⊢
  cases hs <;>
    simp only [upTo41, upTo58, upTo71, upTo107, upTo137, upTo159, upTo179, List.append_assoc,
      List.cons_append, List.nil_append, List.mem_cons, forall_eq_or_imp, Event.isSetupStep,
      Event.error, List.mem_nil_iff, false_imp_iff, implies_true, and_true, true_and,
      forall_const, reduceCtorEq, Option.some.injEq, forall_eq', bne_iff_ne, ne_eq,
      Nat.reduceEqDiff, not_true_eq_false, not_false_eq_true, false_implies, Bool.false_eq_true] <;>
    simp [EndsWith]

theorem direct_dial_error_continues (w : World) (h : Host) (ctx : Ctx) (info : AddrInfo)
    (err : Error) (hmem : Event.connect 65 h ctx info (some err) ∈ run w) :
    Before (.connect 65 h ctx info (some err))
        (.log 71 [.str "As suspected we cannot directly dial between the unreachable hosts"])
        (run w) ∧
      Before (.log 71 [.str "As suspected we cannot directly dial between the unreachable hosts"])
        (.libp2pNew 74 [] w.newRelay1) (run w) := by
  have hs := run_shape w
  generalize run w = t at hs hmem ⊢
  cases hs <;> simp [upTo41, upTo58, upTo71, upTo107, upTo137, upTo159, upTo179] at hmem <;>
    obtain ⟨rfl, rfl, rfl, rfl⟩ := hmem <;>
    simp only [upTo71, upTo107, upTo137, upTo159, upTo179, List.append_assoc, List.cons_append,
      List.nil_append] <;>
    exact ⟨Before.of_mem_append _ _ _ _ (by simp), by
      simp_all [upTo58, upTo41, Before]⟩

theorem read_is_last (w : World) (s : Stream) (len n : Nat) (r : Option Error)
    (hmem : Event.streamRead 185 s len n r ∈ run w) :
    (run w).getLast? = some (.streamRead 185 s len n r) := by
  have hs := run_shape w
  generalize run w = t at hs hmem ⊢
  cases hs <;> simp [upTo41, upTo58, upTo71, upTo107, upTo137, upTo159, upTo179] at hmem
  simp [hmem]

/-- C5, as the code has it: every error returned by a setup step of `run`
(host creation, relay instantiation, the connects to the relay, the
reservation, address parsing, the relayed connect, the stream open) is an
argument of the log line that directly follows the call, and the run is over
after that log line.  The error of the direct dial on line 65 is the expected
outcome: it is answered by the fixed log line 71 and `run` goes on to create
`relay1`.  The result of `s.Read` on line 185 is discarded, the call being the
last event of the run, and so is the result of `s.Close` in the stream
handler, the last event of the handler. -/
theorem setup_errors_logged_and_fatal (w : World) :
    (∀ e ∈ run w, e.isSetupStep = true → ∀ err, e.error = some err →
      ∃ line args, LogArg.err err ∈ args ∧ EndsWith e (.log line args) (run w)) ∧
    (∀ h ctx info err, Event.connect 65 h ctx info (some err) ∈ run w →
      Before (.connect 65 h ctx info (some err))
        (.log 71 [.str "As suspected we cannot directly dial between the unreachable hosts"])
        (run w) ∧
      Before (.log 71 [.str "As suspected we cannot directly dial between the unreachable hosts"])
        (.libp2pNew 74 [] w.newRelay1) (run w)) ∧
    (∀ s len n r, Event.streamRead 185 s len n r ∈ run w →
      (run w).getLast? = some (.streamRead 185 s len n r)) ∧
    (∀ s r, (streamHandler s r).getLast? = some (.streamClose 118 s r)) :=
  ⟨setup_error_ends_run w, direct_dial_error_continues w, read_is_last w, fun _ _ => rfl⟩

theorem setup_errors_logged_and_fatal_witness :
    Event.reserve 128 .Background sampleU2 { ID := sampleRelay1.ID, Addrs := [sampleListenAddr] }
        (some "reservation refused") ∈ run refusedWorld ∧
      ∃ line args, LogArg.err "reservation refused" ∈ args ∧
        EndsWith
          (.reserve 128 .Background sampleU2
            { ID := sampleRelay1.ID, Addrs := [sampleListenAddr] } (some "reservation refused"))
          (.log line args) (run refusedWorld) :=
  ⟨by decide,
    (setup_errors_logged_and_fatal refusedWorld).1 _ (by decide) (by decide) _ (by decide)⟩

/-- C5 as stated fails: in the world where every step succeeds, `s.Read` on
line 185 returns the error `EOF` and no log line of the run carries it; the
stream handler run on a stream whose `Close` returns an error logs nothing
about it either. -/
theorem read_and_close_errors_not_logged :
    (Event.streamRead 185 sampleStream 1 0 (some "EOF") ∈ run happyWorld ∧
      Logged "EOF" (run happyWorld) = false) ∧
    (Event.streamClose 118 sampleStream (some "stream reset")
        ∈ streamHandler sampleStream (some "stream reset") ∧
      Logged "stream reset" (streamHandler sampleStream (some "stream reset")) = false) ∧
    AllErrorsLogged (run happyWorld) = false ∧
    AllErrorsLogged (streamHandler sampleStream (some "stream reset")) = false := by
  decide

/-! ## The reservation is requested over an established connection (lines 90-132) -/

/-- C6: whenever `client.Reserve` is called in `run`, it is called by
`unreachable2` for `relay1info`, and before it `relay.New(relay1)` returned
without error and `unreachable2.Connect` to `relay1info` returned without
error. -/
theorem reserve_over_established_connection (w : World) (line : Nat) (ctx : Ctx) (h : Host)
    (info : AddrInfo) (res : Option Error)
    (hmem : Event.reserve line ctx h info res ∈ run w) :
    ∃ u2 relay1, w.newUnreachable2 = .ok u2 ∧ w.newRelay1 = .ok relay1 ∧
      h = u2 ∧ info = { ID := relay1.ID, Addrs := w.addrs 98 } ∧
      Before (.relayNew 90 relay1 none) (.reserve line ctx h info res) (run w) ∧
      Before (.connect 107 u2 .Background info none) (.reserve line ctx h info res) (run w) := by
  have hs := run_shape w
  generalize run w = t at hs hmem ⊢
  cases hs <;> simp [upTo41, upTo58, upTo71, upTo107, upTo137, upTo159, upTo179] at hmem <;>
    simp_all [upTo41, upTo58, upTo71, upTo107, upTo137, upTo159, upTo179, Before]

theorem reserve_over_established_connection_witness :
    Event.reserve 128 .Background sampleU2 { ID := sampleRelay1.ID, Addrs := [sampleListenAddr] }
        none ∈ run happyWorld ∧
      ∃ u2 relay1, happyWorld.newUnreachable2 = .ok u2 ∧ happyWorld.newRelay1 = .ok relay1 ∧
        sampleU2 = u2 ∧
        ({ ID := sampleRelay1.ID, Addrs := [sampleListenAddr] } : AddrInfo)
          = { ID := relay1.ID, Addrs := happyWorld.addrs 98 } ∧
        Before (.relayNew 90 relay1 none)
          (.reserve 128 .Background sampleU2
            { ID := sampleRelay1.ID, Addrs := [sampleListenAddr] } none) (run happyWorld) ∧
        Before
          (.connect 107 u2 .Background { ID := sampleRelay1.ID, Addrs := [sampleListenAddr] } none)
          (.reserve 128 .Background sampleU2
            { ID := sampleRelay1.ID, Addrs := [sampleListenAddr] } none) (run happyWorld) :=
  ⟨by decide, reserve_over_established_connection happyWorld _ _ _ _ _ (by decide)⟩

/-! ## The direct dial must fail (lines 23-78) -/

theorem direct_dial_worked (w : World) (h : Host) (ctx : Ctx) (info : AddrInfo)
    (hmem : Event.connect 65 h ctx info none ∈ run w) :
    EndsWith (.connect 65 h ctx info none)
        (.log 67 [.str "This actually should have failed."]) (run w) ∧
      ∀ e ∈ run w, e.line ≤ 67 ∧
        (∀ l o r, e = .libp2pNew l o r → l < 74) ∧
        (∀ l c h2 i r, e ≠ .reserve l c h2 i r) ∧
        (∀ l h2 c i r, e = .connect l h2 c i r → l = 65) := by
  have hs := run_shape w
  generalize run w = t at hs hmem ⊢
  cases hs <;> simp [upTo41, upTo58, upTo71, upTo107, upTo137, upTo159, upTo179] at hmem
  simp_all [upTo41, upTo58, EndsWith, Event.line]

theorem relay_path_after_failed_dial (w : World) (e : Event) (hmem : e ∈ run w)
    (hl : 67 < e.line) :
    ∃ u1 u2 err, w.newUnreachable1 = .ok u1 ∧ w.newUnreachable2 = .ok u2 ∧
      Before (.connect 65 u1 .Background { ID := u2.ID, Addrs := w.addrs 62 } (some err)) e
        (run w) := by
  have hs := run_shape w
  generalize run w = t at hs hmem ⊢
  have hpre : ∀ u1 u2, ∀ x ∈ upTo58 w u1 u2, x.line ≤ 67 := by
    intro u1 u2; simp [upTo58, upTo41, Event.line]
  cases hs
  case failUnreachable1 => simp at hmem; rcases hmem with rfl | rfl <;> simp [Event.line] at hl
  case failUnreachable2 =>
    simp [upTo41] at hmem; rcases hmem with rfl | rfl | rfl | rfl <;> simp [Event.line] at hl
  case directDialWorked u1 u2 _ _ _ =>
    rcases List.mem_append.1 hmem with h | h
    · have := hpre u1 u2 e h; omega
    · simp at h; rcases h with rfl | rfl <;> simp [Event.line] at hl
  all_goals
    simp only [upTo71, upTo107, upTo137, upTo159, upTo179, List.append_assoc, List.cons_append,
      List.nil_append] at hmem ⊢
    exact ⟨_, _, _, by assumption, by assumption,
      before_of_line _ _ _ _ 67 (hpre _ _) (by simp [Event.line]) hmem hl⟩

/-- C8: if the direct `Connect` on line 65 returns no error, `run` logs "This
actually should have failed." right after it and returns: no event of a later
line occurs, `relay1` is not created (the only hosts created are those of
lines 29 and 43), no reservation is made and nothing is dialed via a relay
(the only `Connect` is the direct one).  Every event past
line 67, hence the whole relay path, occurs only after the direct `Connect`
of `unreachable1` to `unreachable2`'s own `AddrInfo` returned an error. -/
theorem direct_dial_must_fail (w : World) :
    (∀ h ctx info, Event.connect 65 h ctx info none ∈ run w →
      EndsWith (.connect 65 h ctx info none)
        (.log 67 [.str "This actually should have failed."]) (run w) ∧
      ∀ e ∈ run w, e.line ≤ 67 ∧
        (∀ l o r, e = .libp2pNew l o r → l < 74) ∧
        (∀ l c h2 i r, e ≠ .reserve l c h2 i r) ∧
        (∀ l h2 c i r, e = .connect l h2 c i r → l = 65)) ∧
    (∀ e ∈ run w, 67 < e.line →
      ∃ u1 u2 err, w.newUnreachable1 = .ok u1 ∧ w.newUnreachable2 = .ok u2 ∧
        Before (.connect 65 u1 .Background { ID := u2.ID, Addrs := w.addrs 62 } (some err)) e
          (run w)) :=
  ⟨direct_dial_worked w, relay_path_after_failed_dial w⟩

theorem direct_dial_must_fail_witness :
    (Event.connect 65 sampleU1 .Background { ID := sampleU2.ID, Addrs := [] } none
        ∈ run directWorld ∧
      EndsWith (.connect 65 sampleU1 .Background { ID := sampleU2.ID, Addrs := [] } none)
        (.log 67 [.str "This actually should have failed."]) (run directWorld) ∧
      ∀ e ∈ run directWorld, e.line ≤ 67 ∧
        (∀ l o r, e = .libp2pNew l o r → l < 74) ∧
        (∀ l c h2 i r, e ≠ .reserve l c h2 i r) ∧
        (∀ l h2 c i r, e = .connect l h2 c i r → l = 65)) ∧
    (Event.libp2pNew 74 [] (.ok sampleRelay1) ∈ run happyWorld ∧
      ∃ u1 u2 err, happyWorld.newUnreachable1 = .ok u1 ∧ happyWorld.newUnreachable2 = .ok u2 ∧
        Before
          (.connect 65 u1 .Background { ID := u2.ID, Addrs := happyWorld.addrs 62 } (some err))
          (.libp2pNew 74 [] (.ok sampleRelay1)) (run happyWorld)) :=
  ⟨⟨by decide, (direct_dial_must_fail directWorld).1 _ _ _ (by decide)⟩,
   ⟨by decide, (direct_dial_must_fail happyWorld).2 _ (by decide) (by decide)⟩⟩

/-! ## The backoff override (lines 143-162) -/

/-- C9: in every execution of `run` that reaches the relayed `Connect` (line
159), `unreachable1`'s dial backoff for `unreachable2.ID()` was cleared after
the failed direct `Connect` (line 65) and before the relayed `Connect`; and
every backoff clear of `run` is on `unreachable1` for `unreachable2.ID()`, so
no other peer's entry is cleared. -/
theorem backoff_cleared_before_redial (w : World) :
    (∀ h ctx info res, Event.connect 159 h ctx info res ∈ run w →
      ∃ u1 u2 err, w.newUnreachable1 = .ok u1 ∧ w.newUnreachable2 = .ok u2 ∧
        h = u1 ∧ info.ID = u2.ID ∧
        Before (.connect 65 u1 .Background { ID := u2.ID, Addrs := w.addrs 62 } (some err))
          (.backoffClear 149 u1 u2.ID) (run w) ∧
        Before (.backoffClear 149 u1 u2.ID) (.connect 159 h ctx info res) (run w)) ∧
    (∀ line h p, Event.backoffClear line h p ∈ run w →
      ∃ u1 u2, w.newUnreachable1 = .ok u1 ∧ w.newUnreachable2 = .ok u2 ∧ h = u1 ∧ p = u2.ID) := by
  have hs := run_shape w
  generalize run w = t at hs ⊢
  constructor
  · intro h ctx info res hmem
    cases hs <;> simp [upTo41, upTo58, upTo71, upTo107, upTo137, upTo159, upTo179] at hmem <;>
      simp_all [upTo41, upTo58, upTo71, upTo107, upTo137, upTo159, upTo179, Before]
  · intro line h p hmem
    cases hs <;> simp [upTo41, upTo58, upTo71, upTo107, upTo137, upTo159, upTo179] at hmem <;>
      simp_all

theorem backoff_cleared_before_redial_witness :
    (Event.connect 159 sampleU1 .Background { ID := sampleU2.ID, Addrs := [sampleRelayAddr] } none
        ∈ run happyWorld ∧
      ∃ u1 u2 err, happyWorld.newUnreachable1 = .ok u1 ∧ happyWorld.newUnreachable2 = .ok u2 ∧
        sampleU1 = u1 ∧
        ({ ID := sampleU2.ID, Addrs := [sampleRelayAddr] } : AddrInfo).ID = u2.ID ∧
        Before
          (.connect 65 u1 .Background { ID := u2.ID, Addrs := happyWorld.addrs 62 } (some err))
          (.backoffClear 149 u1 u2.ID) (run happyWorld) ∧
        Before (.backoffClear 149 u1 u2.ID)
          (.connect 159 sampleU1 .Background
            { ID := sampleU2.ID, Addrs := [sampleRelayAddr] } none) (run happyWorld)) ∧
    (Event.backoffClear 149 sampleU1 sampleU2.ID ∈ run happyWorld ∧
      ∃ u1 u2, happyWorld.newUnreachable1 = .ok u1 ∧ happyWorld.newUnreachable2 = .ok u2 ∧
        sampleU1 = u1 ∧ sampleU2.ID = u2.ID) :=
  ⟨⟨by decide,
    (backoff_cleared_before_redial happyWorld).1 sampleU1 .Background
      { ID := sampleU2.ID, Addrs := [sampleRelayAddr] } none (by decide)⟩,
   ⟨by decide,
    (backoff_cleared_before_redial happyWorld).2 149 sampleU1 sampleU2.ID (by decide)⟩⟩

/-! ## The stream and its handler (lines 112-183) -/

/-- C10: the stream `run` opens is opened by `unreachable1` to the peer
`unreachable2.ID()` with protocol `"/customprotocol"`; the stream handler was
registered before, on `unreachable2` with the same protocol ID, and on no
other host or protocol; the same peer ID is the target component of the relay
address text and the ID of the `AddrInfo` dialed on line 159. -/
theorem stream_matches_handler (w : World) (line : Nat) (h : Host) (ctx : Ctx) (p : PeerID)
    (proto : String) (res : Res Stream)
    (hmem : Event.newStream line h ctx p proto res ∈ run w) :
    ∃ u1 u2 relay1 relayaddr,
      w.newUnreachable1 = .ok u1 ∧ w.newUnreachable2 = .ok u2 ∧ w.newRelay1 = .ok relay1 ∧
      h = u1 ∧ p = u2.ID ∧ proto = "/customprotocol" ∧
      Before (.setStreamHandler 114 u2 "/customprotocol") (.newStream line h ctx p proto res)
        (run w) ∧
      (∀ l h2 pr, Event.setStreamHandler l h2 pr ∈ run w → h2 = u2 ∧ pr = proto) ∧
      Event.newMultiaddr 137 ("/p2p/" ++ relay1.ID.String ++ "/p2p-circuit/p2p/" ++ p.String)
        (.ok relayaddr) ∈ run w ∧
      Event.connect 159 u1 .Background { ID := p, Addrs := [relayaddr] } none ∈ run w := by
  have hs := run_shape w
  generalize run w = t at hs hmem ⊢
  cases hs <;> simp [upTo41, upTo58, upTo71, upTo107, upTo137, upTo159, upTo179] at hmem <;>
    simp_all [upTo41, upTo58, upTo71, upTo107, upTo137, upTo159, upTo179, Before]

theorem stream_matches_handler_witness :
    Event.newStream 179 sampleU1 (.WithUseTransient .Background "customprotocol") sampleU2.ID
        "/customprotocol" (.ok sampleStream) ∈ run happyWorld ∧
      ∃ u1 u2 relay1 relayaddr,
        happyWorld.newUnreachable1 = .ok u1 ∧ happyWorld.newUnreachable2 = .ok u2 ∧
        happyWorld.newRelay1 = .ok relay1 ∧
        sampleU1 = u1 ∧ sampleU2.ID = u2.ID ∧ "/customprotocol" = "/customprotocol" ∧
        Before (.setStreamHandler 114 u2 "/customprotocol")
          (.newStream 179 sampleU1 (.WithUseTransient .Background "customprotocol") sampleU2.ID
            "/customprotocol" (.ok sampleStream)) (run happyWorld) ∧
        (∀ l h2 pr, Event.setStreamHandler l h2 pr ∈ run happyWorld →
          h2 = u2 ∧ pr = "/customprotocol") ∧
        Event.newMultiaddr 137
          ("/p2p/" ++ relay1.ID.String ++ "/p2p-circuit/p2p/" ++ sampleU2.ID.String)
          (.ok relayaddr) ∈ run happyWorld ∧
        Event.connect 159 u1 .Background { ID := sampleU2.ID, Addrs := [relayaddr] } none
          ∈ run happyWorld :=
  ⟨by decide, stream_matches_handler happyWorld _ _ _ _ _ _ (by decide)⟩

end Relay
